import Mathlib

/-!
Verification of the resolver core of `src/index.ts` (an Apollo GraphQL server
over two Firestore collections, `users` and `tweets`).

The embedding models:
- the two document shapes (`User`, `Tweet`) as they appear in the GraphQL
  schema (`typeDefs`), since the TypeScript `interface` declarations are
  compile-time cast annotations only and do not shape the runtime data;
- the Firestore client surface the code uses: a point lookup
  `doc(path).get()` (returning the document data or `undefined`), a filtered
  collection scan `.collection(tweets).where(userId, ==, v).get()`, and an
  unfiltered scan `.collection(tweets).get()`; documents are stored as
  (path-or-key, data) pairs, and `.data()` returns the data component;
- a run of each resolver as a pure function of the store contents, plus a
  flag saying whether the single underlying store call fails at runtime
  (network / permission / timeout), mirroring the `try/catch` structure:
  `User.tweets`, `Tweets.user` and `Query.user` rethrow a caught store
  failure as `new ApolloError(error)`, while `Query.tweets` has no
  `try/catch` and lets the failure propagate unwrapped;
- the trace of store calls each resolver issues, so that claims about
  "no store call is issued" and "read-only" are expressible.
-/

/-- A user document, fields as in the GraphQL User type of the source. -/
structure User where
  id : String
  name : String
  screenName : String
  statusesCount : Nat
deriving Repr, DecidableEq

/-- A tweet document, fields as in the GraphQL Tweets type of the source. -/
structure Tweet where
  id : String
  text : String
  userId : String
  likes : Nat
deriving Repr, DecidableEq

/-- A runtime failure of the backing store (Firestore call rejects). -/
inductive StoreErr where
  | network
  | permission
  | timeout
deriving Repr, DecidableEq

/-- An error surfaced by a resolver: either the caught store failure rethrown
wrapped as `new ApolloError(error)`, or the raw store failure propagating
out of a resolver that has no `try/catch`. -/
inductive GqlError where
  | apolloError (e : StoreErr)
  | storeThrow (e : StoreErr)
deriving Repr, DecidableEq

/-- The value `Query.user` produces on its (non-throwing) data channel:
`user || new ValidationError(..)` is either the user document or a
`ValidationError` object returned as if it were data. -/
inductive UserResult where
  | user (u : User)
  | validationError (msg : String)
deriving Repr, DecidableEq

/-- A store operation. The source only ever issues the three read calls;
the write calls are part of the store interface and are modelled so that
"read-only" is a statement, not a tautology of the type. -/
inductive StoreCall where
  | getDoc (path : String)
  | whereUserIdEq (value : String)
  | scanTweets
  | setDoc (path : String) (data : User)
  | deleteDoc (path : String)
deriving Repr, DecidableEq

/-- Store contents: the `users` documents keyed by their document path
(`users/{key}`), and the `tweets` documents keyed by their document key. -/
structure Store where
  docs : List (String × User)
  tweets : List (String × Tweet)
deriving Repr, DecidableEq

/-- `admin.firestore().doc(path).get()` followed by `.data()`: the data of
the document at `path`, or `undefined` (here `none`) when absent. -/
def Store.getDoc (s : Store) (path : String) : Option User :=
  (s.docs.find? (fun p => p.1 == path)).map Prod.snd

/-- `.collection(tweets).where(userId, ==, v).get()` followed by
`.docs.map(t => t.data())`: the data of every tweet document whose
`userId` field equals `v`. -/
def Store.whereUserIdEq (s : Store) (v : String) : List Tweet :=
  (s.tweets.filter (fun p => p.2.userId == v)).map Prod.snd

/-- `.collection(tweets).get()` followed by `.docs.map(t => t.data())`:
the data of every tweet document. -/
def Store.scanTweets (s : Store) : List Tweet :=
  s.tweets.map Prod.snd

/-- Whether a store call mutates the store. -/
def StoreCall.isWrite : StoreCall → Bool
  | .setDoc _ _ => true
  | .deleteDoc _ => true
  | _ => false

/-- Effect of one store call on the store contents. -/
def Store.applyCall (s : Store) : StoreCall → Store
  | .setDoc path u => Store.mk ((path, u) :: s.docs) s.tweets
  | .deleteDoc path => Store.mk (s.docs.filter (fun p => p.1 != path)) s.tweets
  | _ => s

/-- Effect of a sequence of store calls on the store contents. -/
def Store.applyCalls (s : Store) (cs : List StoreCall) : Store :=
  cs.foldl Store.applyCall s

/-- The `User.tweets` resolver (spec name `resolveTweetsForUser`):
issues one filtered scan `where(userId, ==, user.id)`; on success returns
the matching documents' data; a store failure is caught and rethrown as
`ApolloError`. Returns (result, trace of store calls issued). -/
def resolveTweetsForUser (s : Store) (fail : Option StoreErr) (user : User) :
    Except GqlError (List Tweet) × List StoreCall :=
  match fail with
  | Option.some e =>
      (Except.error (GqlError.apolloError e), [StoreCall.whereUserIdEq user.id])
  | Option.none =>
      (Except.ok (s.whereUserIdEq user.id), [StoreCall.whereUserIdEq user.id])

/-- The `Tweets.user` resolver (spec name `resolveUserForTweet`):
issues one point lookup for `users/{tweet.userId}` and returns
`tweetAuthor.data()` — the document data when present, `undefined`
(`none`) when absent; a store failure is caught and rethrown as
`ApolloError`. Returns (result, trace of store calls issued). -/
def resolveUserForTweet (s : Store) (fail : Option StoreErr) (tweet : Tweet) :
    Except GqlError (Option User) × List StoreCall :=
  match fail with
  | Option.some e =>
      (Except.error (GqlError.apolloError e),
        [StoreCall.getDoc ("users/" ++ tweet.userId)])
  | Option.none =>
      (Except.ok (s.getDoc ("users/" ++ tweet.userId)),
        [StoreCall.getDoc ("users/" ++ tweet.userId)])

/-- The `Query.tweets` resolver (spec name `listAllTweets`): issues one
unfiltered scan of the `tweets` collection; it has no `try/catch`, so a
store failure propagates unwrapped. Returns (result, trace). -/
def listAllTweets (s : Store) (fail : Option StoreErr) :
    Except GqlError (List Tweet) × List StoreCall :=
  match fail with
  | Option.some e =>
      (Except.error (GqlError.storeThrow e), [StoreCall.scanTweets])
  | Option.none =>
      (Except.ok s.scanTweets, [StoreCall.scanTweets])

/-- The `Query.user` resolver (spec name `resolveUserById`): issues one
point lookup for `users/{args.id}` (for every id, with no prior input
validation); then `user || new ValidationError(User ID not found)` returns
the document data when present, and otherwise a `ValidationError` object on
the data channel; a store failure is caught and rethrown as `ApolloError`.
Returns (result, trace of store calls issued). -/
def resolveUserById (s : Store) (fail : Option StoreErr) (id : String) :
    Except GqlError UserResult × List StoreCall :=
  match fail with
  | Option.some e =>
      (Except.error (GqlError.apolloError e),
        [StoreCall.getDoc ("users/" ++ id)])
  | Option.none =>
      match s.getDoc ("users/" ++ id) with
      | Option.some u =>
          (Except.ok (UserResult.user u), [StoreCall.getDoc ("users/" ++ id)])
      | Option.none =>
          (Except.ok (UserResult.validationError "User ID not found"),
            [StoreCall.getDoc ("users/" ++ id)])

/-- Sample user document, as in the spec scenario of section 8. -/
def sampleUser : User := User.mk "u1" "Arjun" "arjunyel" 1

/-- Sample tweet by `sampleUser`. -/
def sampleTweet : Tweet := Tweet.mk "t1" "hello" "u1" 0

/-- A tweet whose `userId` matches no user document (dangling reference). -/
def danglingTweet : Tweet := Tweet.mk "t3" "hi" "u2" 0

/-- The empty store. -/
def emptyStore : Store := Store.mk [] []

/-- A store holding `sampleUser` and `sampleTweet`. -/
def sampleStore : Store :=
  Store.mk [("users/u1", sampleUser)] [("t1", sampleTweet)]

/-- Claim C1: for every store content and every user, `resolveTweetsForUser`
(the `User.tweets` resolver, with the store call succeeding) returns a
sequence — not an error — containing exactly the stored tweets whose
`userId` equals the user's id: no more, no fewer, with no ordering
requirement; in particular the empty sequence when no tweet matches. -/
theorem resolveTweetsForUser_exact (s : Store) (user : User) :
    ∃ ts, (resolveTweetsForUser s Option.none user).1 = Except.ok ts ∧
      ∀ t, t ∈ ts ↔ ∃ k, (k, t) ∈ s.tweets ∧ t.userId = user.id := by
  refine ⟨s.whereUserIdEq user.id, rfl, ?_⟩
  intro t
  simp only [Store.whereUserIdEq, List.mem_map, List.mem_filter, beq_iff_eq]
  constructor
  · rintro ⟨⟨k, t2⟩, ⟨hmem, heq⟩, rfl⟩
    exact ⟨k, hmem, heq⟩
  · rintro ⟨k, hmem, heq⟩
    exact ⟨(k, t), ⟨hmem, heq⟩, rfl⟩

/-- Witness for C1: on the sample store, the characterization holds and the
resolver concretely returns `[sampleTweet]`. -/
theorem resolveTweetsForUser_exact_witness :
    (∃ ts, (resolveTweetsForUser sampleStore Option.none sampleUser).1 = Except.ok ts ∧
      ∀ t, t ∈ ts ↔ ∃ k, (k, t) ∈ sampleStore.tweets ∧ t.userId = sampleUser.id) ∧
    (resolveTweetsForUser sampleStore Option.none sampleUser).1 = Except.ok [sampleTweet] :=
  ⟨resolveTweetsForUser_exact sampleStore sampleUser, rfl⟩

/-- Claim C2, counterexample: `resolveUserById` applied to the malformed id
`""` does issue a store call (the point lookup for the path `users/`), so no
input-validation failure is reported before the store call; moreover its
outcome is identical to the ordinary not-found outcome of a well-formed
unmatched id, so the failure kind is not distinct. -/
theorem resolveUserById_emptyId_callsStore :
    (resolveUserById emptyStore Option.none "").2 = [StoreCall.getDoc "users/"] ∧
    (resolveUserById emptyStore Option.none "").2 ≠ [] ∧
    (resolveUserById emptyStore Option.none "").1 =
      (resolveUserById emptyStore Option.none "missing").1 := by
  refine ⟨rfl, ?_, rfl⟩
  intro h
  simp [resolveUserById, emptyStore, Store.getDoc] at h

/-- Claim C2, amended: `resolveUserById` performs no input validation: for
every id — the empty string included — it issues the point lookup for
`users/{id}`; an id that matches no document, malformed or not, yields the
same `ValidationError`-as-data outcome as any other unmatched id, not a
distinct input-validation failure reported before the store call. -/
theorem resolveUserById_no_input_validation (s : Store) (id : String)
    (h : s.getDoc ("users/" ++ id) = Option.none) :
    (resolveUserById s Option.none id).2 = [StoreCall.getDoc ("users/" ++ id)] ∧
    (resolveUserById s Option.none id).1 =
      Except.ok (UserResult.validationError "User ID not found") := by
  simp [resolveUserById, h]

/-- Witness for the amended C2: at the empty store and id `""`. -/
theorem resolveUserById_no_input_validation_witness :
    (resolveUserById emptyStore Option.none "").2 = [StoreCall.getDoc ("users/" ++ "")] ∧
    (resolveUserById emptyStore Option.none "").1 =
      Except.ok (UserResult.validationError "User ID not found") :=
  resolveUserById_no_input_validation emptyStore "" rfl

/-- Claim C3: `resolveUserForTweet` (the `Tweets.user` resolver) returns,
when the store call succeeds, the not-found value (`ok none`) when no user
document has key `tweet.userId`, and exactly the stored document when one
does — never a partial record; a store failure instead lands on the error
channel as a wrapped `ApolloError`, a distinct outcome. -/
theorem resolveUserForTweet_notFound_or_user (s : Store) (t : Tweet) :
    (s.getDoc ("users/" ++ t.userId) = Option.none →
      (resolveUserForTweet s Option.none t).1 = Except.ok Option.none) ∧
    (∀ u, s.getDoc ("users/" ++ t.userId) = Option.some u →
      (resolveUserForTweet s Option.none t).1 = Except.ok (Option.some u)) ∧
    (∀ e, (resolveUserForTweet s (Option.some e) t).1 =
      Except.error (GqlError.apolloError e)) := by
  refine ⟨?_, ?_, ?_⟩
  · intro h; simp [resolveUserForTweet, h]
  · intro u h; simp [resolveUserForTweet, h]
  · intro e; rfl

/-- Witness for C3: the dangling tweet on the empty store yields not-found,
and the sample tweet on the sample store yields the stored user. -/
theorem resolveUserForTweet_notFound_or_user_witness :
    (resolveUserForTweet emptyStore Option.none danglingTweet).1 = Except.ok Option.none ∧
    (resolveUserForTweet sampleStore Option.none sampleTweet).1 =
      Except.ok (Option.some sampleUser) :=
  ⟨(resolveUserForTweet_notFound_or_user emptyStore danglingTweet).1 rfl,
   (resolveUserForTweet_notFound_or_user sampleStore sampleTweet).2.1 sampleUser rfl⟩

/-- Claim C4: when the underlying store call fails with `e`,
`resolveTweetsForUser`, `resolveUserForTweet` and `resolveUserById` each
surface it wrapped (`ApolloError e`), while `listAllTweets` is the one
resolver that lets it propagate unwrapped (`storeThrow e`); each issues
exactly one store call, so the failure is never swallowed or retried. -/
theorem storeFailure_surfacing (s : Store) (e : StoreErr) (u : User)
    (t : Tweet) (id : String) :
    (resolveTweetsForUser s (Option.some e) u).1 =
      Except.error (GqlError.apolloError e) ∧
    (resolveUserForTweet s (Option.some e) t).1 =
      Except.error (GqlError.apolloError e) ∧
    (resolveUserById s (Option.some e) id).1 =
      Except.error (GqlError.apolloError e) ∧
    (listAllTweets s (Option.some e)).1 =
      Except.error (GqlError.storeThrow e) ∧
    (resolveTweetsForUser s (Option.some e) u).2.length = 1 ∧
    (resolveUserForTweet s (Option.some e) t).2.length = 1 ∧
    (resolveUserById s (Option.some e) id).2.length = 1 ∧
    (listAllTweets s (Option.some e)).2.length = 1 :=
  ⟨rfl, rfl, rfl, rfl, rfl, rfl, rfl, rfl⟩

/-- Claim C5: for an id whose lookup finds no user document,
`resolveUserById` returns its not-found outcome (the
`ValidationError (User ID not found)` value) on the data channel and raises
no exception: the result is never on the error channel. -/
theorem resolveUserById_missing_noThrow (s : Store) (id : String)
    (h : s.getDoc ("users/" ++ id) = Option.none) :
    (resolveUserById s Option.none id).1 =
      Except.ok (UserResult.validationError "User ID not found") ∧
    ∀ g, (resolveUserById s Option.none id).1 ≠ Except.error g := by
  refine ⟨?_, ?_⟩
  · simp [resolveUserById, h]
  · intro g hg
    simp [resolveUserById, h] at hg

/-- Witness for C5: `resolveUserById` at id `missing` on the empty store. -/
theorem resolveUserById_missing_noThrow_witness :
    (resolveUserById emptyStore Option.none "missing").1 =
      Except.ok (UserResult.validationError "User ID not found") :=
  (resolveUserById_missing_noThrow emptyStore "missing" rfl).1

/-- Claim C6: in `Query.user`, a lookup finding no user does not use a
separate failure channel: the resolver returns a validation-error object on
the success (data) channel, and that value is not a `User` value — the
success and failure channels are mixed for the not-found case. -/
theorem resolveUserById_mixes_channels (s : Store) (id : String)
    (h : s.getDoc ("users/" ++ id) = Option.none) :
    (∃ msg, (resolveUserById s Option.none id).1 =
      Except.ok (UserResult.validationError msg)) ∧
    ∀ u, (resolveUserById s Option.none id).1 ≠ Except.ok (UserResult.user u) := by
  refine ⟨⟨"User ID not found", ?_⟩, ?_⟩
  · simp [resolveUserById, h]
  · intro u hu
    simp [resolveUserById, h] at hu

/-- Witness for C6: at the empty store and id `u9`. -/
theorem resolveUserById_mixes_channels_witness :
    ∃ msg, (resolveUserById emptyStore Option.none "u9").1 =
      Except.ok (UserResult.validationError msg) :=
  (resolveUserById_mixes_channels emptyStore "u9" rfl).1

/-- Claim C7: when a user document with key `tweet.userId` exists,
`resolveUserForTweet` returns exactly that document's data, field for
field. -/
theorem resolveUserForTweet_returns_stored_fields (s : Store) (t : Tweet)
    (u : User) (h : s.getDoc ("users/" ++ t.userId) = Option.some u) :
    ∃ r, (resolveUserForTweet s Option.none t).1 = Except.ok (Option.some r) ∧
      r.id = u.id ∧ r.name = u.name ∧ r.screenName = u.screenName ∧
      r.statusesCount = u.statusesCount := by
  exact ⟨u, by simp [resolveUserForTweet, h], rfl, rfl, rfl, rfl⟩

/-- Witness for C7: the sample tweet against the sample store. -/
theorem resolveUserForTweet_returns_stored_fields_witness :
    ∃ r, (resolveUserForTweet sampleStore Option.none sampleTweet).1 =
      Except.ok (Option.some r) ∧
      r.id = sampleUser.id ∧ r.name = sampleUser.name ∧
      r.screenName = sampleUser.screenName ∧
      r.statusesCount = sampleUser.statusesCount :=
  resolveUserForTweet_returns_stored_fields sampleStore sampleTweet sampleUser rfl

/-- Claim C8: `listAllTweets` (the `Query.tweets` resolver) applied to a
store whose tweets collection is empty returns the empty sequence on the
data channel, not a failure. -/
theorem listAllTweets_emptyCollection (docs : List (String × User)) :
    (listAllTweets (Store.mk docs []) Option.none).1 =
      Except.ok ([] : List Tweet) :=
  rfl

/-- Claim C9: every resolver is read-only with respect to the store: each
trace contains no write call, and replaying the issued calls against the
store leaves the store contents unchanged — whether or not the store call
fails. -/
theorem resolvers_readOnly (s : Store) (fail : Option StoreErr) (u : User)
    (t : Tweet) (id : String) :
    s.applyCalls (resolveTweetsForUser s fail u).2 = s ∧
    s.applyCalls (resolveUserForTweet s fail t).2 = s ∧
    s.applyCalls (resolveUserById s fail id).2 = s ∧
    s.applyCalls (listAllTweets s fail).2 = s ∧
    (∀ c ∈ (resolveTweetsForUser s fail u).2, c.isWrite = false) ∧
    (∀ c ∈ (resolveUserForTweet s fail t).2, c.isWrite = false) ∧
    (∀ c ∈ (resolveUserById s fail id).2, c.isWrite = false) ∧
    (∀ c ∈ (listAllTweets s fail).2, c.isWrite = false) := by
  cases fail <;> cases hg : s.getDoc ("users/" ++ id) <;>
    simp [resolveTweetsForUser, resolveUserForTweet, resolveUserById,
      listAllTweets, Store.applyCalls, Store.applyCall, StoreCall.isWrite, hg]

/-- Witness for C9: replaying the sample run leaves the sample store
unchanged. -/
theorem resolvers_readOnly_witness :
    Store.applyCalls sampleStore
      (resolveTweetsForUser sampleStore Option.none sampleUser).2 = sampleStore :=
  (resolvers_readOnly sampleStore Option.none sampleUser sampleTweet "u1").1

/-- A root or field resolution request, as dispatched by the server:
the two root operations and the two relation fields. -/
inductive Request where
  | tweetsAll
  | userById (id : String)
  | tweetsForUser (u : User)
  | userForTweet (t : Tweet)
deriving Repr, DecidableEq

/-- The observable response of one resolver run. -/
inductive Response where
  | tweetList (ts : List Tweet)
  | userOpt (u : Option User)
  | userRes (r : UserResult)
  | failure (e : GqlError)
deriving Repr, DecidableEq

/-- One run of a resolver, as a relation mirroring the control flow of the
source: which store call the request issues, whether that call fails, and
how the raw store answer is shaped into the response. -/
inductive Run : Store → Option StoreErr → Request → Response → Prop where
  | scanOk (s : Store) :
      Run s Option.none Request.tweetsAll (Response.tweetList s.scanTweets)
  | scanFail (s : Store) (e : StoreErr) :
      Run s (Option.some e) Request.tweetsAll (Response.failure (GqlError.storeThrow e))
  | whereOk (s : Store) (u : User) :
      Run s Option.none (Request.tweetsForUser u)
        (Response.tweetList (s.whereUserIdEq u.id))
  | whereFail (s : Store) (e : StoreErr) (u : User) :
      Run s (Option.some e) (Request.tweetsForUser u)
        (Response.failure (GqlError.apolloError e))
  | getForTweet (s : Store) (t : Tweet) :
      Run s Option.none (Request.userForTweet t)
        (Response.userOpt (s.getDoc ("users/" ++ t.userId)))
  | getForTweetFail (s : Store) (e : StoreErr) (t : Tweet) :
      Run s (Option.some e) (Request.userForTweet t)
        (Response.failure (GqlError.apolloError e))
  | getByIdFound (s : Store) (id : String) (u : User) :
      s.getDoc ("users/" ++ id) = Option.some u →
      Run s Option.none (Request.userById id) (Response.userRes (UserResult.user u))
  | getByIdMissing (s : Store) (id : String) :
      s.getDoc ("users/" ++ id) = Option.none →
      Run s Option.none (Request.userById id)
        (Response.userRes (UserResult.validationError "User ID not found"))
  | getByIdFail (s : Store) (e : StoreErr) (id : String) :
      Run s (Option.some e) (Request.userById id)
        (Response.failure (GqlError.apolloError e))

/-- The functional result of dispatching a request, read off the resolver
definitions; used to tie the `Run` relation to them. -/
def evalRequest (s : Store) (fail : Option StoreErr) : Request → Response
  | Request.tweetsAll =>
      match (listAllTweets s fail).1 with
      | Except.ok ts => Response.tweetList ts
      | Except.error e => Response.failure e
  | Request.tweetsForUser u =>
      match (resolveTweetsForUser s fail u).1 with
      | Except.ok ts => Response.tweetList ts
      | Except.error e => Response.failure e
  | Request.userForTweet t =>
      match (resolveUserForTweet s fail t).1 with
      | Except.ok o => Response.userOpt o
      | Except.error e => Response.failure e
  | Request.userById id =>
      match (resolveUserById s fail id).1 with
      | Except.ok r => Response.userRes r
      | Except.error e => Response.failure e

/-- The `Run` relation is total and agrees with the resolver functions:
every request has the run whose response is the functional result. -/
theorem run_evalRequest (s : Store) (fail : Option StoreErr) (q : Request) :
    Run s fail q (evalRequest s fail q) := by
  cases q <;> cases fail <;>
    simp only [evalRequest, listAllTweets, resolveTweetsForUser,
      resolveUserForTweet, resolveUserById]
  case tweetsAll.none => exact Run.scanOk s
  case tweetsAll.some e => exact Run.scanFail s e
  case userById.none id =>
    cases hg : s.getDoc ("users/" ++ id) with
    | none => simp only [hg]; exact Run.getByIdMissing s id hg
    | some u => simp only [hg]; exact Run.getByIdFound s id u hg
  case userById.some id e => exact Run.getByIdFail s e id
  case tweetsForUser.none u => exact Run.whereOk s u
  case tweetsForUser.some u e => exact Run.whereFail s e u
  case userForTweet.none t => exact Run.getForTweet s t
  case userForTweet.some t e => exact Run.getForTweetFail s e t

/-- Claim C10: every resolver is deterministic in the store contents, the
store-call outcome and its argument: two runs of the same request against
the same store with the same store-call outcome produce equal responses. -/
theorem resolvers_deterministic (s : Store) (fail : Option StoreErr)
    (q : Request) (r1 r2 : Response) (h1 : Run s fail q r1)
    (h2 : Run s fail q r2) : r1 = r2 := by
  cases h1 <;> cases h2 <;> simp_all

/-- Witness for C10: two concrete runs of `user(missing)` on the empty
store produce the same response. -/
theorem resolvers_deterministic_witness :
    Response.userRes (UserResult.validationError "User ID not found") =
      Response.userRes (UserResult.validationError "User ID not found") :=
  resolvers_deterministic emptyStore Option.none (Request.userById "missing")
    (Response.userRes (UserResult.validationError "User ID not found"))
    (Response.userRes (UserResult.validationError "User ID not found"))
    (Run.getByIdMissing emptyStore "missing" rfl)
    (Run.getByIdMissing emptyStore "missing" rfl)
